import Mathlib

/-!
Shallow embedding of the spreadsheet_engine core (src/core) in Lean 4,
used to verify the natural-language specification's claims about the
template/data merge engine, the position text notation and the style
merge algebra.

Strings are modelled as lists of character codes (`Str := List Nat`),
Python `None`-able fields as `Option`, Python `dict`s as association
lists looked up by first match, and Python `float` as `Rat`.  Fields of
the source classes that the merge engine never reads (metadata payloads,
conditional formatting rules, computed-value registries on `TableData`)
are omitted from the corresponding structures; everything the merge
algorithm touches is translated.
-/

/-- Character strings, as lists of (ASCII) character codes. -/
abbrev Str := List Nat

/-- Decidable equality for fallible results, for concrete evaluation. -/
instance {ε α : Type} [DecidableEq ε] [DecidableEq α] : DecidableEq (Except ε α) :=
  fun a b =>
    match a, b with
    | Except.ok x, Except.ok y =>
      match decEq x y with
      | isTrue h => isTrue (by rw [h])
      | isFalse h => isFalse (by intro hc; cases hc; exact h rfl)
    | Except.error x, Except.error y =>
      match decEq x y with
      | isTrue h => isTrue (by rw [h])
      | isFalse h => isFalse (by intro hc; cases hc; exact h rfl)
    | Except.ok _, Except.error _ => isFalse (by intro hc; cases hc)
    | Except.error _, Except.ok _ => isFalse (by intro hc; cases hc)

/-- Python `str.isspace` on the ASCII range (space and the 9..13 controls):
used by `str.strip` in `CellPosition.from_a1`. -/
def isSpaceCh (c : Nat) : Bool := c = 32 || (9 ≤ c && c ≤ 13)

/-- Python `str.upper` on a single ASCII character code. -/
def toUpperCh (c : Nat) : Nat := if 97 ≤ c && c ≤ 122 then c - 32 else c

/-- Python `str.isalpha` restricted to the ASCII range. -/
def isAlphaCh (c : Nat) : Bool := (65 ≤ c && c ≤ 90) || (97 ≤ c && c ≤ 122)

/-- Python `str.isdigit` restricted to the ASCII range. -/
def isDigitCh (c : Nat) : Bool := 48 ≤ c && c ≤ 57

/-- Python `str.strip`: drop leading and trailing whitespace. -/
def stripStr (s : Str) : Str :=
  ((s.dropWhile isSpaceCh).reverse.dropWhile isSpaceCh).reverse

/-- Truthiness of an optional string in Python (`if s:`): `None` and the
empty string are falsy. -/
def truthyStr : Option Str → Bool
  | Option.none => false
  | some s => !s.isEmpty

/-- Embedding of src/core/models/position.py `CellPosition` (the dataclass
fields; the `__post_init__` validation is `CellPosition.make`). -/
structure CellPosition where
  row : Nat
  column : Nat
deriving DecidableEq

/-- Error raised by `CellPosition.__post_init__`. -/
inductive PositionError
  | invalidRow
  | invalidColumn
deriving DecidableEq

/-- Validating constructor mirroring `CellPosition.__post_init__`:
row and column must both be ≥ 1. -/
def CellPosition.make (row column : Nat) : Except PositionError CellPosition :=
  if row < 1 then Except.error PositionError.invalidRow
  else if column < 1 then Except.error PositionError.invalidColumn
  else Except.ok ⟨row, column⟩

/-- Embedding of `CellPosition._column_letters_to_index`: fold left over the
letters, `result = result * 26 + (ord(char) - ord("A") + 1)`. -/
def columnLettersToIndex (letters : Str) : Nat :=
  letters.foldl (fun result c => result * 26 + (c - 65 + 1)) 0

/-- Fuel-driven core of `CellPosition._column_index_to_letters` (structural
recursion on the fuel keeps the definition kernel-computable; the fuel is
always at least the index, see `columnIndexToLetters`). -/
def columnIndexToLettersGo : Nat → Nat → Str
  | _, 0 => []
  | 0, _ + 1 => []
  | fuel + 1, n + 1 => columnIndexToLettersGo fuel (n / 26) ++ [65 + n % 26]

/-- Embedding of `CellPosition._column_index_to_letters`: bijective base-26
digits produced least-significant-first by the source's while loop, which
prepends, so the recursion appends the last digit. `0` (rejected by the
source with a raise, but unreachable from a valid position) yields `[]`. -/
def columnIndexToLetters (n : Nat) : Str := columnIndexToLettersGo n n

/-- Fuel-driven core of the decimal digits of a natural, most significant
first (the fuel is always at least the number, see `natToDecimalCore`). -/
def natToDecimalGo : Nat → Nat → Str
  | _, 0 => []
  | 0, _ + 1 => []
  | fuel + 1, n + 1 => natToDecimalGo fuel ((n + 1) / 10) ++ [48 + (n + 1) % 10]

/-- Decimal digits of a positive natural, most significant first
(the core of Python's `str(row)`). -/
def natToDecimalCore (n : Nat) : Str := natToDecimalGo n n

/-- Python `str(n)` for a natural number. -/
def natToDecimal (n : Nat) : Str :=
  if n = 0 then [48] else natToDecimalCore n

/-- Python `int(s)` on a string of decimal digits. -/
def digitsToNat (ds : Str) : Nat :=
  ds.foldl (fun result c => result * 10 + (c - 48)) 0

/-- Embedding of `CellPosition.to_a1`: column letters followed by the
decimal row. -/
def CellPosition.toA1 (p : CellPosition) : Str :=
  columnIndexToLetters p.column ++ natToDecimal p.row

/-- Errors raised by `CellPosition.from_a1`, one constructor per raise site. -/
inductive A1Error
  | emptyReference
  | invalidChar (c : Nat)
  | missingComponent
  | invalidPosition (e : PositionError)
deriving DecidableEq

/-- The character-classification loop of `CellPosition.from_a1`: every
alphabetic character is appended to the column part, every digit to the
row part, in scan order; any other character raises. -/
def classifyChars : Str → Except A1Error (Str × Str)
  | [] => Except.ok ([], [])
  | c :: rest =>
    if isAlphaCh c then
      match classifyChars rest with
      | Except.error e => Except.error e
      | Except.ok (cs, ds) => Except.ok (c :: cs, ds)
    else if isDigitCh c then
      match classifyChars rest with
      | Except.error e => Except.error e
      | Except.ok (cs, ds) => Except.ok (cs, c :: ds)
    else Except.error (A1Error.invalidChar c)

/-- Embedding of `CellPosition.from_a1`: strip and uppercase the input,
reject when empty, classify each character as letter (column part) or
digit (row part) rejecting anything else, require both parts nonempty,
then build the position through the validating constructor. -/
def fromA1 (reference : Str) : Except A1Error CellPosition :=
  let r := (stripStr reference).map toUpperCh
  if r.isEmpty then Except.error A1Error.emptyReference
  else
    match classifyChars r with
    | Except.error e => Except.error e
    | Except.ok (columnPart, rowPart) =>
      if columnPart.isEmpty || rowPart.isEmpty then
        Except.error A1Error.missingComponent
      else
        match CellPosition.make (digitsToNat rowPart) (columnLettersToIndex columnPart) with
        | Except.error e => Except.error (A1Error.invalidPosition e)
        | Except.ok p => Except.ok p

/-- Definition following the SPEC's words (not the source), for comparison
with `fromA1`: a single-cell reference is "one-or-more letters followed by
one-or-more digits". -/
def specLettersThenDigits (s : Str) : Bool :=
  let letters := s.takeWhile isAlphaCh
  let rest := s.dropWhile isAlphaCh
  !letters.isEmpty && !rest.isEmpty && rest.all isDigitCh

/-- Embedding of src/core/styles/cell_style.py `Color` (the stored,
normalized hex value; the constructors used by the merge engine pass
already-normalized hex strings). -/
structure Color where
  value : Str
deriving DecidableEq

/-- Embedding of `HorizontalAlignment`. -/
inductive HorizontalAlignment
  | left | center | right | justify | distributed
deriving DecidableEq

/-- Embedding of `VerticalAlignment`. -/
inductive VerticalAlignment
  | top | center | bottom | justify | distributed
deriving DecidableEq

/-- Embedding of `Alignment` (named `CellAlignment` to avoid clashing with Mathlib). -/
structure CellAlignment where
  horizontal : Option HorizontalAlignment := Option.none
  vertical : Option VerticalAlignment := Option.none
  wrap_text : Bool := false
  shrink_to_fit : Bool := false
  indent : Nat := 0
  text_rotation : Int := 0
deriving DecidableEq

/-- Embedding of `BorderStyle`. -/
inductive BorderStyle
  | noBorder | thin | medium | thick | double | dotted | dashed | dashDot | dashDotDot
deriving DecidableEq

/-- Embedding of `Border`. -/
structure Border where
  left : Option BorderStyle := Option.none
  right : Option BorderStyle := Option.none
  top : Option BorderStyle := Option.none
  bottom : Option BorderStyle := Option.none
  color : Option Color := Option.none
deriving DecidableEq

/-- Embedding of `Border.all_sides`. -/
def Border.allSides (style : BorderStyle) (color : Option Color := Option.none) : Border :=
  { left := some style, right := some style, top := some style, bottom := some style,
    color := color }

/-- Embedding of `UnderlineStyle`. -/
inductive UnderlineStyle
  | noUnderline | single | double
deriving DecidableEq

/-- Embedding of `Font`. -/
structure Font where
  family : Option Str := Option.none
  size : Option Nat := Option.none
  bold : Bool := false
  italic : Bool := false
  underline : UnderlineStyle := UnderlineStyle.noUnderline
  strikethrough : Bool := false
  color : Option Color := Option.none
deriving DecidableEq

/-- Embedding of `PatternFill`. -/
inductive PatternFill
  | noFill | solid | gray125 | gray0625 | darkGray | lightGray
  | darkHorizontal | darkVertical | darkDown | darkUp | darkGrid | darkTrellis
  | lightHorizontal | lightVertical | lightDown | lightUp | lightGrid | lightTrellis
deriving DecidableEq

/-- Embedding of `Fill`. -/
structure Fill where
  pattern : PatternFill := PatternFill.solid
  foreground_color : Option Color := Option.none
  background_color : Option Color := Option.none
deriving DecidableEq

/-- Embedding of `CellStyle`: the aggregate of the five optional
style components. -/
structure CellStyle where
  font : Option Font := Option.none
  fill : Option Fill := Option.none
  border : Option Border := Option.none
  alignment : Option CellAlignment := Option.none
  number_format : Option Str := Option.none
deriving DecidableEq

/-- The `x if x is not None else y` pattern used field-wise by
`CellStyle.merge`. -/
def orElseOpt {α : Type} (o s : Option α) : Option α :=
  match o with
  | some v => some v
  | Option.none => s

/-- Embedding of `CellStyle.merge`: `other` is optional; every non-null
field of `other` wins, otherwise `self`'s field is kept. -/
def CellStyle.merge (self : CellStyle) (other : Option CellStyle) : CellStyle :=
  match other with
  | Option.none => self
  | some o =>
    { font := orElseOpt o.font self.font
      fill := orElseOpt o.fill self.fill
      border := orElseOpt o.border self.border
      alignment := orElseOpt o.alignment self.alignment
      number_format := orElseOpt o.number_format self.number_format }

/-- Hex string "D3D3D3" (the header fill color). -/
def hexD3D3D3 : Str := [68, 51, 68, 51, 68, 51]

/-- Embedding of the `CellStyle.header` preset. -/
def CellStyle.header : CellStyle :=
  { font := some { bold := true, size := some 11 }
    fill := some { pattern := PatternFill.solid, foreground_color := some ⟨hexD3D3D3⟩ }
    alignment := some { horizontal := some HorizontalAlignment.center,
                        vertical := some VerticalAlignment.center }
    border := some (Border.allSides BorderStyle.thin) }

/-- Embedding of the `CellStyle.title` preset. -/
def CellStyle.title : CellStyle :=
  { font := some { bold := true, size := some 14 }
    alignment := some { horizontal := some HorizontalAlignment.center,
                        vertical := some VerticalAlignment.center } }

/-- Embedding of the `CellStyle.currency` preset. -/
def CellStyle.currency : CellStyle :=
  { alignment := some { horizontal := some HorizontalAlignment.right } }

/-- Embedding of the `CellStyle.percentage` preset. -/
def CellStyle.percentage : CellStyle :=
  { alignment := some { horizontal := some HorizontalAlignment.right } }

/-- Cell values (Python `Any` as used by the engine: `None`, strings,
integers and booleans). -/
inductive Value
  | vNone
  | vStr (s : Str)
  | vInt (n : Int)
  | vBool (b : Bool)
deriving DecidableEq

/-- Embedding of src/core/models/cell.py `CellDataType`. -/
inductive CellDataType
  | string | number | boolean | date | datetime | time | formula | error | blank
deriving DecidableEq

/-- Embedding of `Cell` (the dataclass fields after `__post_init__` ran). -/
structure Cell where
  value : Value := Value.vNone
  formula : Option Str := Option.none
  style : Option CellStyle := Option.none
  number_format : Option Str := Option.none
  data_type : CellDataType := CellDataType.blank
  comment : Option Str := Option.none
  hyperlink : Option Str := Option.none
deriving DecidableEq

/-- Embedding of `Cell._infer_data_type`: formula present (truthy) gives
FORMULA, `None`/empty-string value gives BLANK, then boolean, number,
string. -/
def inferDataType (value : Value) (formula : Option Str) : CellDataType :=
  if truthyStr formula then CellDataType.formula
  else
    match value with
    | Value.vNone => CellDataType.blank
    | Value.vStr s => if s.isEmpty then CellDataType.blank else CellDataType.string
    | Value.vBool _ => CellDataType.boolean
    | Value.vInt _ => CellDataType.number

/-- Embedding of the `Cell(...)` constructor followed by `__post_init__`:
infer the data type when not supplied, and normalize a truthy formula to
start with `=` (code 61). -/
def mkCell (value : Value) (formula : Option Str) (style : Option CellStyle)
    (number_format : Option Str) (data_type : Option CellDataType)
    (comment : Option Str) (hyperlink : Option Str) : Cell :=
  let dt := match data_type with
    | some d => d
    | Option.none => inferDataType value formula
  let f := match formula with
    | some s => if !s.isEmpty && s.head? ≠ some 61 then some (61 :: s) else some s
    | Option.none => Option.none
  { value := value, formula := f, style := style, number_format := number_format,
    data_type := dt, comment := comment, hyperlink := hyperlink }

/-- Embedding of `Cell.blank`. -/
def Cell.blank : Cell :=
  mkCell Value.vNone Option.none Option.none Option.none (some CellDataType.blank)
    Option.none Option.none

/-- Embedding of `Cell.text`. -/
def Cell.text (value : Str) (style : Option CellStyle := Option.none) : Cell :=
  mkCell (Value.vStr value) Option.none style Option.none (some CellDataType.string)
    Option.none Option.none

/-- Embedding of `Cell.formula_cell`. -/
def Cell.formulaCell (formula : Str) (cached_value : Value := Value.vNone)
    (number_format : Option Str := Option.none)
    (style : Option CellStyle := Option.none) : Cell :=
  mkCell cached_value (some formula) style number_format (some CellDataType.formula)
    Option.none Option.none

/-- Embedding of `Cell.with_style`. -/
def Cell.withStyle (c : Cell) (style : CellStyle) : Cell :=
  { c with style := some style }

/-- Embedding of `Cell.merge_style`: a `None` style leaves the cell as is;
otherwise the cell's style (when present) is merged with the argument
taking precedence, else the argument is taken wholesale. -/
def Cell.mergeStyle (c : Cell) (style : Option CellStyle) : Cell :=
  match style with
  | Option.none => c
  | some st =>
    let merged := match c.style with
      | some cs => cs.merge (some st)
      | Option.none => st
    c.withStyle merged

/-- Embedding of src/core/models/table.py `Table` (fields; the
rectangularity validation of `__post_init__` is `tableRowsRectangular`). -/
structure Table where
  cells : List (List Cell) := []
  headers : Option (List Cell) := Option.none
  title : Option Cell := Option.none
  start_position : CellPosition := ⟨1, 1⟩
deriving DecidableEq

/-- The `Table.__post_init__` check: when the grid is nonempty, all rows
must have the same length. -/
def tableRowsRectangular (cells : List (List Cell)) : Bool :=
  match cells with
  | [] => true
  | r :: rest => rest.all (fun r2 => r2.length = r.length)

/-- Embedding of `Table.row_count`. -/
def Table.rowCount (t : Table) : Nat := t.cells.length

/-- Embedding of `Table.has_headers`. -/
def Table.hasHeaders (t : Table) : Bool :=
  match t.headers with
  | some hs => !hs.isEmpty
  | Option.none => false

/-- Embedding of `Table.has_title`. -/
def Table.hasTitle (t : Table) : Bool := t.title.isSome

/-- The row-replacement of `Table.apply_style_to_row` on the raw grid:
`cells[row] = [cell.merge_style(style) for cell in cells[row]]`, a no-op
when `row` is out of bounds. -/
def applyStyleToRowCells (cells : List (List Cell)) (row : Nat)
    (style : Option CellStyle) : List (List Cell) :=
  match cells, row with
  | [], _ => []
  | r :: rest, 0 => r.map (fun c => c.mergeStyle style) :: rest
  | r :: rest, n + 1 => r :: applyStyleToRowCells rest n style

/-- Embedding of `Table.apply_style_to_row`. -/
def Table.applyStyleToRow (t : Table) (row : Nat) (style : Option CellStyle) : Table :=
  { t with cells := applyStyleToRowCells t.cells row style }

/-- Data rows: Python dicts from column key to value, as association
lists looked up by first match. -/
abbrev RowData := List (Str × Value)

/-- Python `row_data.get(key)`: `None` when the key is absent. -/
def rowGet (row : RowData) (key : Str) : Value :=
  (row.lookup key).getD Value.vNone

/-- Embedding of src/core/templates/template.py `ColumnDefinition`. -/
structure ColumnDefinition where
  key : Str
  label : Str
  width : Option Rat := Option.none
  style : Option CellStyle := Option.none
  header_style : Option CellStyle := Option.none
  number_format : Option Str := Option.none
  formula_template : Option Str := Option.none
  computed : Option (RowData → Value) := Option.none
  hidden : Bool := false

/-- Embedding of `SectionDefinition`. -/
structure SectionDefinition where
  key : Str
  label : Str
  style : Option CellStyle := Option.none
  formula_template : Option Str := Option.none
  is_total : Bool := false
  indent_level : Nat := 0

/-- Embedding of `TableTemplate` (the `conditional_rules` list, which the
merge engine copies but never inspects, is omitted). -/
structure TableTemplate where
  name : Str
  columns : List ColumnDefinition
  sections : Option (List SectionDefinition) := Option.none
  title : Option Str := Option.none
  title_style : Option CellStyle := Option.none
  header_style : Option CellStyle := Option.none
  default_style : Option CellStyle := Option.none
  start_position : CellPosition := ⟨1, 1⟩
  freeze_headers : Bool := true
  show_grid : Bool := true
  alternate_row_colors : Bool := false
  alternate_row_style : Option CellStyle := Option.none

/-- Embedding of `TableTemplate.visible_columns`. -/
def TableTemplate.visibleColumns (t : TableTemplate) : List ColumnDefinition :=
  t.columns.filter (fun c => !c.hidden)

/-- Embedding of `SheetTemplate`. -/
structure SheetTemplate where
  name : Str
  tables : List TableTemplate
  freeze_panes : Option CellPosition := Option.none
  default_column_width : Option Rat := Option.none
  default_row_height : Option Rat := Option.none
  show_gridlines : Bool := true
  show_headers : Bool := true
  zoom_scale : Nat := 100

/-- Errors raised by template `__post_init__` validation. -/
inductive TemplateError
  | emptySheetName
  | sheetTemplateNameTooLong
  | noTables
  | zoomOutOfRange
deriving DecidableEq

/-- Validating constructor mirroring `SheetTemplate.__post_init__`: empty
name, name longer than 31 characters, empty table list and out-of-range
zoom are rejected, in that order.  Note the source checks only the LENGTH
of the name here; the invalid-character check lives in
`Sheet.__post_init__` (see `Sheet.make`). -/
def SheetTemplate.make (name : Str) (tables : List TableTemplate)
    (freeze_panes : Option CellPosition := Option.none)
    (default_column_width : Option Rat := Option.none)
    (default_row_height : Option Rat := Option.none)
    (show_gridlines : Bool := true) (show_headers : Bool := true)
    (zoom_scale : Nat := 100) : Except TemplateError SheetTemplate :=
  if name.isEmpty then Except.error TemplateError.emptySheetName
  else if 31 < name.length then Except.error TemplateError.sheetTemplateNameTooLong
  else if tables.isEmpty then Except.error TemplateError.noTables
  else if zoom_scale < 10 || 400 < zoom_scale then Except.error TemplateError.zoomOutOfRange
  else Except.ok
    { name := name, tables := tables, freeze_panes := freeze_panes,
      default_column_width := default_column_width,
      default_row_height := default_row_height,
      show_gridlines := show_gridlines, show_headers := show_headers,
      zoom_scale := zoom_scale }

/-- Embedding of `SpreadsheetTemplate`. -/
structure SpreadsheetTemplate where
  sheets : List SheetTemplate
  metadata : List (Str × Value) := []
  active_sheet : Option Str := Option.none

/-- Embedding of src/core/templates/data.py `TableData` (rows plus the
per-section row collections; `computed_values` and `metadata`, which the
merger never reads, are omitted). -/
structure TableData where
  rows : List RowData := []
  section_data : List (Str × List RowData) := []

/-- Embedding of `TableData.get_section_data`: the section's rows with
default `[]`. -/
def TableData.getSectionData (d : TableData) (key : Str) : List RowData :=
  (d.section_data.lookup key).getD []

/-- Embedding of `TableData.is_empty`: no rows and no section data. -/
def TableData.isEmptyData (d : TableData) : Bool :=
  d.rows.isEmpty && d.section_data.isEmpty

/-- The `TableData()` default constructed by the merger for a missing table. -/
def emptyTableData : TableData := {}

/-- Embedding of `SheetData`. -/
structure SheetData where
  table_data : List (Str × TableData) := []

/-- Embedding of `SheetData.get_table_data`. -/
def SheetData.getTableData (d : SheetData) (name : Str) : Option TableData :=
  d.table_data.lookup name

/-- The `SheetData()` default constructed by the merger for a missing sheet. -/
def emptySheetData : SheetData := {}

/-- Embedding of `SpreadsheetData`. -/
structure SpreadsheetData where
  sheet_data : List (Str × SheetData) := []
  metadata : List (Str × Value) := []

/-- Embedding of `SpreadsheetData.get_sheet_data`. -/
def SpreadsheetData.getSheetData (d : SpreadsheetData) (name : Str) : Option SheetData :=
  d.sheet_data.lookup name

/-- Embedding of `TemplateMerger._create_header_cells`: one text cell per
visible column, styled `column.header_style or table.header_style or
CellStyle.header()` (Python `or` chain on optionals). -/
def createHeaderCells (t : TableTemplate) : List Cell :=
  t.visibleColumns.map (fun col =>
    Cell.text col.label (orElseOpt col.header_style
      (orElseOpt t.header_style (some CellStyle.header))))

/-- Embedding of `TemplateMerger._create_cell_from_column`: resolve the
value through the column's `computed` function when present, else by key
lookup; a truthy `formula_template` produces a FORMULA cell with the
resolved value cached, otherwise a plain cell; style is
`column.style or template.default_style`. -/
def createCellFromColumn (col : ColumnDefinition) (row : RowData)
    (t : TableTemplate) : Cell :=
  let value := match col.computed with
    | some f => f row
    | Option.none => rowGet row col.key
  if truthyStr col.formula_template then
    Cell.formulaCell (col.formula_template.getD []) value col.number_format
      (orElseOpt col.style t.default_style)
  else
    mkCell value Option.none (orElseOpt col.style t.default_style)
      col.number_format Option.none Option.none Option.none

/-- Embedding of `TemplateMerger._create_row_cells`: one cell per visible
column. -/
def createRowCells (t : TableTemplate) (row : RowData) : List Cell :=
  t.visibleColumns.map (fun col => createCellFromColumn col row t)

/-- Embedding of `TemplateMerger._create_section_cells` (the
`section_key` parameter of the source is unused by its body and omitted):
one row of cells per data row, in order. -/
def createSectionCells (t : TableTemplate) (section_rows : List RowData) :
    List (List Cell) :=
  section_rows.map (fun row => createRowCells t row)

/-- The per-column loop of `TemplateMerger._create_total_row`, carrying the
enumeration index: index 0 gets a text cell with the section label (styled
`section.style or CellStyle.header()`); later columns get a FORMULA cell
with the section's truthy `formula_template` and the column's number
format, or a blank cell when there is none. -/
def createTotalRowAux (sec : SectionDefinition) (idx : Nat)
    (cols : List ColumnDefinition) : List Cell :=
  match cols with
  | [] => []
  | col :: rest =>
    (if idx = 0 then
      Cell.text sec.label (some ((sec.style).getD CellStyle.header))
    else if truthyStr sec.formula_template then
      Cell.formulaCell (sec.formula_template.getD []) Value.vNone col.number_format
        (some ((sec.style).getD CellStyle.header))
    else Cell.blank) :: createTotalRowAux sec (idx + 1) rest

/-- Embedding of `TemplateMerger._create_total_row` (the source's
`current_row_count` parameter is unused by its body and omitted). -/
def createTotalRow (t : TableTemplate) (sec : SectionDefinition) : List Cell :=
  createTotalRowAux sec 0 t.visibleColumns

/-- The sectioned loop of `TemplateMerger._create_data_cells`: iterate the
sections in declared order; skip a section whose data rows are empty;
otherwise append its data rows and, when the section has a truthy
`formula_template` or `is_total`, one total row. -/
def sectionedDataCells (t : TableTemplate) (d : TableData) :
    List SectionDefinition → List (List Cell)
  | [] => []
  | sec :: rest =>
    let section_rows := d.getSectionData sec.key
    if section_rows.isEmpty then sectionedDataCells t d rest
    else
      createSectionCells t section_rows ++
        (if truthyStr sec.formula_template || sec.is_total then [createTotalRow t sec]
         else []) ++
        sectionedDataCells t d rest

/-- Embedding of `TemplateMerger._create_data_cells`: empty data yields an
empty body; a truthy (present and nonempty) section list takes the
sectioned path, otherwise one row per `data.rows` entry. -/
def createDataCells (t : TableTemplate) (d : TableData) : List (List Cell) :=
  if d.isEmptyData then []
  else
    match t.sections with
    | some secs =>
      if secs.isEmpty then d.rows.map (fun row => createRowCells t row)
      else sectionedDataCells t d secs
    | Option.none => d.rows.map (fun row => createRowCells t row)

/-- The indices `range(0, n, 2)` of the alternate-row loop in
`TemplateMerger.merge_table`. -/
def evenIndices (n : Nat) : List Nat :=
  (List.range n).filter (fun i => i % 2 == 0)

/-- Embedding of `TemplateMerger.merge_table`: build the title cell from a
truthy template title, the header cells, and the body; then, when
`alternate_row_colors` is set and an `alternate_row_style` is present,
apply it by style-merge to every even-indexed body row. -/
def mergeTable (t : TableTemplate) (d : TableData) : Table :=
  let title_cell : Option Cell := match t.title with
    | some s => if s.isEmpty then Option.none else some (Cell.text s t.title_style)
    | Option.none => Option.none
  let header_cells := createHeaderCells t
  let data_cells := createDataCells t d
  let table : Table :=
    { cells := data_cells, headers := some header_cells, title := title_cell,
      start_position := t.start_position }
  if t.alternate_row_colors && t.alternate_row_style.isSome then
    (evenIndices table.rowCount).foldl
      (fun tb i => tb.applyStyleToRow i t.alternate_row_style) table
  else table

/-- Errors raised while merging (from `Sheet.__post_init__`,
`Sheet.set_column_width` and `Spreadsheet.add_sheet`). -/
inductive MergeError
  | sheetNameTooLong
  | sheetNameInvalidChar
  | nonPositiveColumnWidth
  | duplicateSheetName
deriving DecidableEq

/-- The characters forbidden in sheet names by `Sheet.__post_init__`:
backslash, slash, star, question mark, colon and square brackets. -/
def invalidSheetChars : Str := [92, 47, 42, 63, 58, 91, 93]

/-- Embedding of src/core/models/sheet.py `Sheet` (tables, loose cells,
width/height overrides and defaults; conditional rules are omitted). -/
structure Sheet where
  name : Str
  tables : List Table := []
  cells : List (CellPosition × Cell) := []
  freeze_panes : Option CellPosition := Option.none
  column_widths : List (Nat × Rat) := []
  row_heights : List (Nat × Rat) := []
  default_column_width : Option Rat := Option.none
  default_row_height : Option Rat := Option.none
deriving DecidableEq

/-- Validating constructor mirroring `Sheet.__post_init__`: the name must
be at most 31 characters and contain none of the invalid characters. -/
def Sheet.make (name : Str) (freeze_panes : Option CellPosition)
    (default_column_width default_row_height : Option Rat) :
    Except MergeError Sheet :=
  if 31 < name.length then Except.error MergeError.sheetNameTooLong
  else if name.any (fun c => invalidSheetChars.contains c) then
    Except.error MergeError.sheetNameInvalidChar
  else Except.ok
    { name := name, freeze_panes := freeze_panes,
      default_column_width := default_column_width,
      default_row_height := default_row_height }

/-- Embedding of `Sheet.add_table` (append). -/
def Sheet.addTable (s : Sheet) (t : Table) : Sheet :=
  { s with tables := s.tables ++ [t] }

/-- Update of a Python dict entry, preserving insertion order: replace the
first binding of the key, else append. -/
def assocSet {α β : Type} [DecidableEq α] : List (α × β) → α → β → List (α × β)
  | [], k, v => [(k, v)]
  | (k2, v2) :: rest, k, v =>
    if k2 = k then (k, v) :: rest else (k2, v2) :: assocSet rest k v

/-- Embedding of `Sheet.set_column_width`: non-positive widths raise. -/
def Sheet.setColumnWidth (s : Sheet) (column : Nat) (width : Rat) :
    Except MergeError Sheet :=
  if width ≤ 0 then Except.error MergeError.nonPositiveColumnWidth
  else Except.ok { s with column_widths := assocSet s.column_widths column width }

/-- The width-propagation loop at the end of each `merge_sheet` iteration:
`for col_idx, col_def in enumerate(visible_columns, start=1): if
col_def.width: sheet.set_column_width(col_idx, col_def.width)` (a width of
exactly `0` is falsy and skipped). -/
def setVisibleWidths (s : Sheet) (idx : Nat) :
    List ColumnDefinition → Except MergeError Sheet
  | [] => Except.ok s
  | col :: rest =>
    match col.width with
    | some w =>
      if w ≠ 0 then
        match s.setColumnWidth idx w with
        | Except.error e => Except.error e
        | Except.ok s2 => setVisibleWidths s2 (idx + 1) rest
      else setVisibleWidths s (idx + 1) rest
    | Option.none => setVisibleWidths s (idx + 1) rest

/-- The `rows_used` accumulation of `merge_sheet`: one row for a title,
one for headers, plus the body row count. -/
def tableRowsUsed (tb : Table) : Nat :=
  (if tb.hasTitle then 1 else 0) + (if tb.hasHeaders then 1 else 0) + tb.rowCount

/-- Rebinding of the table template's start position performed by
`merge_sheet` (the source rebuilds the `TableTemplate` with every field
unchanged except `start_position`, which becomes `(current_row, 1)`). -/
def rebindStart (tt : TableTemplate) (current_row : Nat) : TableTemplate :=
  { tt with start_position := ⟨current_row, 1⟩ }

/-- The per-table loop of `TemplateMerger.merge_sheet`: look up the table's
data (default empty), rebind the start position to `(current_row, 1)`,
merge, append the table, advance the cursor by `rows_used + 2`, and
propagate visible column widths. -/
def mergeSheetLoop (d : SheetData) :
    List TableTemplate → Sheet → Nat → Except MergeError Sheet
  | [], sheet, _ => Except.ok sheet
  | tt :: rest, sheet, current_row =>
    let table_data := (d.getTableData tt.name).getD emptyTableData
    let table := mergeTable (rebindStart tt current_row) table_data
    let sheet1 := sheet.addTable table
    match setVisibleWidths sheet1 1 tt.visibleColumns with
    | Except.error e => Except.error e
    | Except.ok sheet2 =>
      mergeSheetLoop d rest sheet2 (current_row + tableRowsUsed table + 2)

/-- Embedding of `TemplateMerger.merge_sheet`: construct the `Sheet`
(validating its name), then run the per-table loop with the cursor
starting at row 1. -/
def mergeSheet (t : SheetTemplate) (d : SheetData) : Except MergeError Sheet :=
  match Sheet.make t.name t.freeze_panes t.default_column_width t.default_row_height with
  | Except.error e => Except.error e
  | Except.ok sheet => mergeSheetLoop d t.tables sheet 1

/-- Embedding of src/core/models/spreadsheet.py `Spreadsheet`. -/
structure Spreadsheet where
  sheets : List Sheet := []
  metadata : List (Str × Value) := []
  active_sheet : Option Str := Option.none
deriving DecidableEq

/-- Embedding of `Spreadsheet.add_sheet`: duplicate names raise; the first
added sheet becomes active when no active sheet is set. -/
def Spreadsheet.addSheet (sp : Spreadsheet) (sheet : Sheet) :
    Except MergeError Spreadsheet :=
  if sp.sheets.any (fun s => s.name = sheet.name) then
    Except.error MergeError.duplicateSheetName
  else Except.ok
    { sp with
      sheets := sp.sheets ++ [sheet]
      active_sheet := (match sp.active_sheet with
        | Option.none => some sheet.name
        | some a => some a) }

/-- The per-sheet loop of `TemplateMerger.merge_spreadsheet`: look up the
sheet's data by name (default empty), merge and append. -/
def mergeSpreadsheetLoop (d : SpreadsheetData) :
    List SheetTemplate → Spreadsheet → Except MergeError Spreadsheet
  | [], sp => Except.ok sp
  | st :: rest, sp =>
    let sheet_data := (d.getSheetData st.name).getD emptySheetData
    match mergeSheet st sheet_data with
    | Except.error e => Except.error e
    | Except.ok sheet =>
      match sp.addSheet sheet with
      | Except.error e => Except.error e
      | Except.ok sp2 => mergeSpreadsheetLoop d rest sp2

/-- Embedding of `TemplateMerger.merge_spreadsheet`: start from a fresh
`Spreadsheet` carrying a copy of the template metadata and the template's
active sheet, then merge each sheet template in order. -/
def mergeSpreadsheet (t : SpreadsheetTemplate) (d : SpreadsheetData) :
    Except MergeError Spreadsheet :=
  mergeSpreadsheetLoop d t.sheets
    { sheets := [], metadata := t.metadata, active_sheet := t.active_sheet }

/-- Per-section body contribution as described by the sectioned-merge
branch of `_create_data_cells`: nothing for a section without data rows,
otherwise its data rows followed by a total row exactly when the section
has a truthy `formula_template` or `is_total`. -/
def sectionContribution (t : TableTemplate) (d : TableData)
    (sec : SectionDefinition) : List (List Cell) :=
  let section_rows := d.getSectionData sec.key
  if section_rows.isEmpty then []
  else
    createSectionCells t section_rows ++
      (if truthyStr sec.formula_template || sec.is_total then [createTotalRow t sec]
       else [])

/-- Start positions claimed for a list of produced tables given the
cursor's starting row: each table starts at `(cursor, 1)` and advances the
cursor by its `rows_used + 2`. -/
def startPositions : List Table → Nat → List CellPosition
  | [], _ => []
  | tb :: rest, current_row =>
    ⟨current_row, 1⟩ :: startPositions rest (current_row + tableRowsUsed tb + 2)

/-- Sample plain column (key "k", label "K") for concrete evaluations. -/
def sampleColKey : ColumnDefinition := { key := [107], label := [75] }

/-- Sample value column (key "v", label "V") carrying a number format. -/
def sampleColValue : ColumnDefinition :=
  { key := [118], label := [86], number_format := some [110] }

/-- Sample section "sa" with neither `is_total` nor a formula template. -/
def sampleSectionA : SectionDefinition := { key := [115, 97], label := [65] }

/-- Sample section "sb" flagged `is_total`. -/
def sampleSectionB : SectionDefinition :=
  { key := [115, 98], label := [66], is_total := true }

/-- Sample data row binding "k" to a string and "v" to the given integer. -/
def sampleRow (n : Int) : RowData :=
  [([107], Value.vStr [120]), ([118], Value.vInt n)]

/-- Sample sectioned table template "t" with the two sample sections. -/
def sampleTableT : TableTemplate :=
  { name := [116], columns := [sampleColKey, sampleColValue],
    sections := some [sampleSectionA, sampleSectionB] }

/-- Sample table data: two rows for section "sa", one row for section "sb". -/
def sampleTableData : TableData :=
  { section_data := [([115, 97], [sampleRow 1, sampleRow 2]),
                     ([115, 98], [sampleRow 3])] }

/-- Sample titled variant of the sectioned table, named "u". -/
def sampleTitledTable : TableTemplate :=
  { sampleTableT with name := [117], title := some [84] }

/-- Sample sheet template "S" stacking the titled and untitled tables. -/
def sampleSheetTemplate : SheetTemplate :=
  { name := [83], tables := [sampleTitledTable, sampleTableT] }

/-- Sample sheet data feeding both sample tables. -/
def sampleSheetData : SheetData :=
  { table_data := [([116], sampleTableData), ([117], sampleTableData)] }

/-- Sample alternate-row style. -/
def sampleAltStyle : CellStyle :=
  { fill := some { foreground_color := some ⟨hexD3D3D3⟩ } }

/-- Sample table template with alternate row colors switched on. -/
def sampleAltTable : TableTemplate :=
  { sampleTableT with
    alternate_row_colors := true
    alternate_row_style := some sampleAltStyle }

/-- The sheet name "a/b": within the length limit but containing a
forbidden character. -/
def slashName : Str := [97, 47, 98]

/-- A 32-character sheet name (32 copies of "x"), longer than the limit. -/
def longName32 : Str := List.replicate 32 120

/-- Sample column whose declared width is negative (truthy in Python, so
the width loop reaches `set_column_width`, which raises). -/
def sampleNegWidthCol : ColumnDefinition :=
  { key := [107], label := [75], width := some (-1) }

/-- Sample single-column table template using the negative-width column. -/
def sampleNegWidthTable : TableTemplate :=
  { name := [116], columns := [sampleNegWidthCol] }

/-- Sample sheet template "S" around the negative-width table. -/
def sampleNegWidthSheet : SheetTemplate :=
  { name := [83], tables := [sampleNegWidthTable] }

/-- Sample spreadsheet template with the single sample sheet. -/
def sampleSpreadTemplate : SpreadsheetTemplate :=
  { sheets := [sampleSheetTemplate] }

/-- Sample spreadsheet data: sheet "S" bound once. -/
def sampleSpreadData1 : SpreadsheetData :=
  { sheet_data := [([83], sampleSheetData)] }

/-- Sample spreadsheet data observationally equal to `sampleSpreadData1`:
a second binding of "S" is shadowed by the first under dict lookup. -/
def sampleSpreadData2 : SpreadsheetData :=
  { sheet_data := [([83], sampleSheetData), ([83], emptySheetData)] }

/-- The sheet produced by merging the sample sheet template (total when
the merge succeeds, with an irrelevant fallback otherwise). -/
def sampleMergedSheet : Sheet :=
  match mergeSheet sampleSheetTemplate sampleSheetData with
  | Except.ok s => s
  | Except.error _ => { name := [] }

/-- A present first argument wins in the `x if x is not None else y`
pattern. -/
theorem orElseOpt_some {α : Type} (v : α) (s : Option α) :
    orElseOpt (some v) s = some v := rfl

/-- An absent first argument falls back to the second. -/
theorem orElseOpt_none {α : Type} (s : Option α) :
    orElseOpt Option.none s = s := rfl

/-- The field-wise override operation is associative. -/
theorem orElseOpt_assoc {α : Type} (x y z : Option α) :
    orElseOpt x (orElseOpt y z) = orElseOpt (orElseOpt x y) z := by
  cases x <;> simp [orElseOpt]

/-- C5: `CellStyle.merge` with `None` is the identity, and merging with a
present style is computed independently per field: `other`'s field wins
whenever it is non-null (the font object is taken wholesale), otherwise
`self`'s field is kept. -/
theorem cellStyle_merge_override (a b : CellStyle) :
    a.merge Option.none = a ∧
    (∀ f, b.font = some f → (a.merge (some b)).font = some f) ∧
    (b.font = Option.none → (a.merge (some b)).font = a.font) ∧
    (∀ f, b.fill = some f → (a.merge (some b)).fill = some f) ∧
    (b.fill = Option.none → (a.merge (some b)).fill = a.fill) ∧
    (∀ f, b.border = some f → (a.merge (some b)).border = some f) ∧
    (b.border = Option.none → (a.merge (some b)).border = a.border) ∧
    (∀ f, b.alignment = some f → (a.merge (some b)).alignment = some f) ∧
    (b.alignment = Option.none → (a.merge (some b)).alignment = a.alignment) ∧
    (∀ f, b.number_format = some f → (a.merge (some b)).number_format = some f) ∧
    (b.number_format = Option.none →
      (a.merge (some b)).number_format = a.number_format) := by
  refine ⟨rfl, ?_, ?_, ?_, ?_, ?_, ?_, ?_, ?_, ?_, ?_⟩ <;>
    (intro h; try intro h2) <;> simp_all [CellStyle.merge, orElseOpt]

/-- Witness for C5 at concrete styles: the title preset's font overrides
the header preset's font, and merging with `None` returns the header
preset unchanged. -/
theorem cellStyle_merge_override_witness :
    (CellStyle.header.merge (some CellStyle.title)).font
        = some { bold := true, size := some 14 } ∧
    CellStyle.header.merge Option.none = CellStyle.header :=
  ⟨(cellStyle_merge_override CellStyle.header CellStyle.title).2.1 _ rfl,
   (cellStyle_merge_override CellStyle.header CellStyle.title).1⟩

/-- C10: `CellStyle.merge` is associative — later merges overwrite
field-by-field, and field-wise override is associative. -/
theorem cellStyle_merge_assoc (a b c : CellStyle) :
    (a.merge (some b)).merge (some c) = a.merge (some (b.merge (some c))) := by
  simp only [CellStyle.merge, CellStyle.mk.injEq]
  exact ⟨orElseOpt_assoc .., orElseOpt_assoc .., orElseOpt_assoc ..,
    orElseOpt_assoc .., orElseOpt_assoc ..⟩

/-- The fuel of `columnIndexToLettersGo` is irrelevant as long as it covers
the index. -/
theorem columnIndexToLettersGo_fuel (f1 : Nat) :
    ∀ f2 n, n ≤ f1 → n ≤ f2 →
      columnIndexToLettersGo f1 n = columnIndexToLettersGo f2 n := by
  induction f1 with
  | zero =>
    intro f2 n h1 _
    interval_cases n
    cases f2 <;> rfl
  | succ f ih =>
    intro f2 n h1 h2
    match n, f2 with
    | 0, f2 => cases f2 <;> rfl
    | m + 1, f2' + 1 =>
      simp only [columnIndexToLettersGo]
      rw [ih f2' (m / 26)
        (le_trans (Nat.div_le_self m 26) (Nat.lt_succ_iff.mp h1))
        (le_trans (Nat.div_le_self m 26) (Nat.lt_succ_iff.mp h2))]

/-- Unfolding equation of `_column_index_to_letters` on a positive index:
peel the least-significant bijective base-26 digit. -/
theorem columnIndexToLetters_succ (n : Nat) :
    columnIndexToLetters (n + 1) = columnIndexToLetters (n / 26) ++ [65 + n % 26] := by
  show columnIndexToLettersGo (n + 1) (n + 1) = _
  simp only [columnIndexToLettersGo]
  rw [columnIndexToLettersGo_fuel n (n / 26) (n / 26) (Nat.div_le_self n 26) le_rfl]
  rfl

/-- The fuel of `natToDecimalGo` is irrelevant as long as it covers the
number. -/
theorem natToDecimalGo_fuel (f1 : Nat) :
    ∀ f2 n, n ≤ f1 → n ≤ f2 → natToDecimalGo f1 n = natToDecimalGo f2 n := by
  induction f1 with
  | zero =>
    intro f2 n h1 _
    interval_cases n
    cases f2 <;> rfl
  | succ f ih =>
    intro f2 n h1 h2
    match n, f2 with
    | 0, f2 => cases f2 <;> rfl
    | m + 1, f2' + 1 =>
      simp only [natToDecimalGo]
      have hdiv : (m + 1) / 10 ≤ m := Nat.le_of_lt_succ (Nat.div_lt_self (Nat.succ_pos m) (by norm_num))
      rw [ih f2' ((m + 1) / 10) (by omega) (by omega)]

/-- Unfolding equation of the decimal encoder on a positive number. -/
theorem natToDecimalCore_succ (n : Nat) :
    natToDecimalCore (n + 1) = natToDecimalCore ((n + 1) / 10) ++ [48 + (n + 1) % 10] := by
  show natToDecimalGo (n + 1) (n + 1) = _
  simp only [natToDecimalGo]
  rw [natToDecimalGo_fuel n ((n + 1) / 10) ((n + 1) / 10)
    (Nat.le_of_lt_succ (Nat.div_lt_self (Nat.succ_pos n) (by norm_num))) le_rfl]
  rfl

/-- Appending one letter multiplies the accumulated bijective base-26
value by 26 and adds the letter's digit value. -/
theorem columnLettersToIndex_append (ls : Str) (c : Nat) :
    columnLettersToIndex (ls ++ [c]) = columnLettersToIndex ls * 26 + (c - 65 + 1) := by
  simp [columnLettersToIndex, List.foldl_append]

/-- Decoding inverts the bijective base-26 encoding of a column index. -/
theorem columnLettersToIndex_columnIndexToLetters (n : Nat) :
    columnLettersToIndex (columnIndexToLetters n) = n := by
  induction n using Nat.strong_induction_on with
  | _ n ih =>
    match n with
    | 0 => rfl
    | m + 1 =>
      rw [columnIndexToLetters_succ, columnLettersToIndex_append,
        ih (m / 26) (Nat.lt_succ_of_le (Nat.div_le_self m 26))]
      have hmod : m % 26 < 26 := Nat.mod_lt m (by norm_num)
      have hdm := Nat.div_add_mod m 26
      omega

/-- Appending one digit multiplies the accumulated decimal value by 10 and
adds the digit's value. -/
theorem digitsToNat_append (ds : Str) (c : Nat) :
    digitsToNat (ds ++ [c]) = digitsToNat ds * 10 + (c - 48) := by
  simp [digitsToNat, List.foldl_append]

/-- Decoding inverts the decimal encoding. -/
theorem digitsToNat_natToDecimalCore (n : Nat) :
    digitsToNat (natToDecimalCore n) = n := by
  induction n using Nat.strong_induction_on with
  | _ n ih =>
    match n with
    | 0 => rfl
    | m + 1 =>
      rw [natToDecimalCore_succ, digitsToNat_append,
        ih ((m + 1) / 10) (Nat.div_lt_self (Nat.succ_pos m) (by norm_num))]
      have hmod : (m + 1) % 10 < 10 := Nat.mod_lt (m + 1) (by norm_num)
      have hdm := Nat.div_add_mod (m + 1) 10
      omega

/-- Python `int` applied to `str(n)` gives back `n`. -/
theorem digitsToNat_natToDecimal (n : Nat) : digitsToNat (natToDecimal n) = n := by
  unfold natToDecimal
  by_cases h : n = 0
  · simp [h, digitsToNat]
  · simp [h, digitsToNat_natToDecimalCore]

/-- Every character emitted by the column encoder is an uppercase letter. -/
theorem mem_columnIndexToLetters (n : Nat) :
    ∀ c ∈ columnIndexToLetters n, 65 ≤ c ∧ c ≤ 90 := by
  induction n using Nat.strong_induction_on with
  | _ n ih =>
    match n with
    | 0 => intro c hc; cases hc
    | m + 1 =>
      rw [columnIndexToLetters_succ]
      intro c hc
      rcases List.mem_append.mp hc with h | h
      · exact ih (m / 26) (Nat.lt_succ_of_le (Nat.div_le_self m 26)) c h
      · have : c = 65 + m % 26 := List.mem_singleton.mp h
        have : m % 26 < 26 := Nat.mod_lt m (by norm_num)
        omega

/-- Every character emitted by the decimal encoder is a digit. -/
theorem mem_natToDecimalCore (n : Nat) :
    ∀ c ∈ natToDecimalCore n, 48 ≤ c ∧ c ≤ 57 := by
  induction n using Nat.strong_induction_on with
  | _ n ih =>
    match n with
    | 0 => intro c hc; cases hc
    | m + 1 =>
      rw [natToDecimalCore_succ]
      intro c hc
      rcases List.mem_append.mp hc with h | h
      · exact ih ((m + 1) / 10) (Nat.div_lt_self (Nat.succ_pos m) (by norm_num)) c h
      · have : c = 48 + (m + 1) % 10 := List.mem_singleton.mp h
        have : (m + 1) % 10 < 10 := Nat.mod_lt (m + 1) (by norm_num)
        omega

/-- Every character of `str(n)` is a digit. -/
theorem mem_natToDecimal (n : Nat) : ∀ c ∈ natToDecimal n, 48 ≤ c ∧ c ≤ 57 := by
  unfold natToDecimal
  by_cases h : n = 0
  · simp [h]
  · simpa [h] using mem_natToDecimalCore n

/-- A list with no character satisfying the predicate is untouched by
`dropWhile`. -/
theorem dropWhile_eq_self_of_none {p : Nat → Bool} (s : Str)
    (h : ∀ c ∈ s, p c = false) : s.dropWhile p = s := by
  cases s with
  | nil => rfl
  | cons a l => simp [List.dropWhile_cons, h a (List.mem_cons_self a l)]

/-- Stripping is the identity on strings without whitespace. -/
theorem stripStr_eq_self (s : Str) (h : ∀ c ∈ s, isSpaceCh c = false) :
    stripStr s = s := by
  unfold stripStr
  rw [dropWhile_eq_self_of_none s h,
    dropWhile_eq_self_of_none s.reverse (fun c hc => h c (List.mem_reverse.mp hc)),
    List.reverse_reverse]

/-- Uppercasing is the identity on characters at most 90 (uppercase
letters and digits). -/
theorem map_toUpperCh_eq_self (s : Str) (h : ∀ c ∈ s, c ≤ 90) :
    s.map toUpperCh = s := by
  induction s with
  | nil => rfl
  | cons a l ih =>
    have ha : a ≤ 90 := h a (List.mem_cons_self a l)
    have : toUpperCh a = a := by
      unfold toUpperCh
      have : ¬(97 ≤ a && a ≤ 122) = true := by
        simp only [Bool.and_eq_true, decide_eq_true_eq]
        omega
      simp [this]
    simp [this, ih (fun c hc => h c (List.mem_cons_of_mem a hc))]

/-- Digits are not alphabetic. -/
theorem isAlphaCh_of_digit (c : Nat) (h : isDigitCh c = true) : isAlphaCh c = false := by
  simp only [isDigitCh, Bool.and_eq_true, decide_eq_true_eq] at h
  simp only [isAlphaCh, Bool.or_eq_false_iff, Bool.and_eq_false_iff,
    decide_eq_false_iff_not]
  omega

/-- The classification loop splits a string of letters followed by digits
into exactly those two parts. -/
theorem classifyChars_letters_digits (ls : Str) :
    ∀ ds : Str, (∀ c ∈ ls, isAlphaCh c = true) → (∀ c ∈ ds, isDigitCh c = true) →
      classifyChars (ls ++ ds) = Except.ok (ls, ds) := by
  induction ls with
  | nil =>
    intro ds _ hd
    induction ds with
    | nil => rfl
    | cons d ds' ihd =>
      have hdd : isDigitCh d = true := hd d (List.mem_cons_self d ds')
      have hda : isAlphaCh d = false := isAlphaCh_of_digit d hdd
      simp only [List.nil_append] at ihd ⊢
      simp [classifyChars, hda, hdd,
        ihd (fun c hc => hd c (List.mem_cons_of_mem d hc))]
  | cons a ls' ihl =>
    intro ds hl hd
    have haa : isAlphaCh a = true := hl a (List.mem_cons_self a ls')
    simp [classifyChars, haa,
      ihl ds (fun c hc => hl c (List.mem_cons_of_mem a hc)) hd]

/-- A positive column index encodes to a nonempty letter string. -/
theorem columnIndexToLetters_ne_nil (c : Nat) (hc : 1 ≤ c) :
    columnIndexToLetters c ≠ [] := by
  match c, hc with
  | m + 1, _ =>
    rw [columnIndexToLetters_succ]
    simp

/-- The decimal encoding of any natural is nonempty. -/
theorem natToDecimal_ne_nil (n : Nat) : natToDecimal n ≠ [] := by
  unfold natToDecimal
  by_cases h : n = 0
  · simp [h]
  · match n, h with
    | m + 1, _ =>
      simp only [if_neg (Nat.succ_ne_zero m)]
      show natToDecimalCore (m + 1) ≠ []
      rw [natToDecimalCore_succ]
      simp

/-- C6: the A1 text notation round-trips — for every position with row
and column at least 1, parsing the printed reference recovers the
position (bijective base-26 letters for the column, decimal digits for
the row). -/
theorem fromA1_toA1_roundtrip (r c : Nat) (hr : 1 ≤ r) (hc : 1 ≤ c) :
    fromA1 (CellPosition.toA1 ⟨r, c⟩) = Except.ok ⟨r, c⟩ := by
  have hL : ∀ x ∈ columnIndexToLetters c, 65 ≤ x ∧ x ≤ 90 := mem_columnIndexToLetters c
  have hD : ∀ x ∈ natToDecimal r, 48 ≤ x ∧ x ≤ 57 := mem_natToDecimal r
  have hall : ∀ x ∈ columnIndexToLetters c ++ natToDecimal r,
      (65 ≤ x ∧ x ≤ 90) ∨ (48 ≤ x ∧ x ≤ 57) := by
    intro x hx
    rcases List.mem_append.mp hx with h | h
    · exact Or.inl (hL x h)
    · exact Or.inr (hD x h)
  have hnospace : ∀ x ∈ columnIndexToLetters c ++ natToDecimal r, isSpaceCh x = false := by
    intro x hx
    rcases hall x hx with h | h <;>
      (simp only [isSpaceCh, Bool.or_eq_false_iff, Bool.and_eq_false_iff,
        decide_eq_false_iff_not]; omega)
  have hle90 : ∀ x ∈ columnIndexToLetters c ++ natToDecimal r, x ≤ 90 := by
    intro x hx
    rcases hall x hx with h | h <;> omega
  have halpha : ∀ x ∈ columnIndexToLetters c, isAlphaCh x = true := by
    intro x hx
    have := hL x hx
    simp only [isAlphaCh, Bool.or_eq_true, Bool.and_eq_true, decide_eq_true_eq]
    omega
  have hdigit : ∀ x ∈ natToDecimal r, isDigitCh x = true := by
    intro x hx
    have := hD x hx
    simp only [isDigitCh, Bool.and_eq_true, decide_eq_true_eq]
    omega
  have hne : columnIndexToLetters c ++ natToDecimal r ≠ [] := by
    intro hcontr
    exact columnIndexToLetters_ne_nil c hc (List.append_eq_nil.mp hcontr).1
  unfold fromA1 CellPosition.toA1
  simp only [stripStr_eq_self _ hnospace, map_toUpperCh_eq_self _ hle90]
  rw [if_neg (by simpa [List.isEmpty_iff] using hne)]
  simp only [classifyChars_letters_digits (columnIndexToLetters c) (natToDecimal r)
    halpha hdigit]
  rw [if_neg (by
    simp only [Bool.or_eq_true, List.isEmpty_iff]
    rintro (h | h)
    · exact columnIndexToLetters_ne_nil c hc h
    · exact natToDecimal_ne_nil r h)]
  rw [digitsToNat_natToDecimal, columnLettersToIndex_columnIndexToLetters]
  unfold CellPosition.make
  rw [if_neg (by omega), if_neg (by omega)]

/-- Witness for C6 at the spec's example: row 5, column 2 prints as "B5"
and parses back. -/
theorem fromA1_toA1_roundtrip_witness :
    fromA1 (CellPosition.toA1 ⟨5, 2⟩) = Except.ok ⟨5, 2⟩ :=
  fromA1_toA1_roundtrip 5 2 (by decide) (by decide)

/-- Letters are not digits. -/
theorem isDigitCh_of_alpha (c : Nat) (h : isAlphaCh c = true) : isDigitCh c = false := by
  simp only [isAlphaCh, Bool.or_eq_true, Bool.and_eq_true, decide_eq_true_eq] at h
  simp only [isDigitCh, Bool.and_eq_false_iff, decide_eq_false_iff_not]
  omega

/-- The classification loop succeeds exactly on strings of letters and
digits. -/
theorem classifyChars_isOk (r : Str) :
    (classifyChars r).toOption.isSome = r.all (fun c => isAlphaCh c || isDigitCh c) := by
  induction r with
  | nil => rfl
  | cons a t ih =>
    by_cases ha : isAlphaCh a = true
    · cases hct : classifyChars t with
      | error e =>
        rw [hct] at ih
        simp only [classifyChars, ha, if_true, hct, List.all_cons, ha, Bool.true_or,
          Bool.true_and]
        simpa using ih
      | ok pr =>
        rw [hct] at ih
        obtain ⟨cs, ds⟩ := pr
        simp only [classifyChars, ha, if_true, hct, List.all_cons, ha, Bool.true_or,
          Bool.true_and]
        simpa using ih
    · by_cases hd : isDigitCh a = true
      · cases hct : classifyChars t with
        | error e =>
          rw [hct] at ih
          simp only [classifyChars, ha, if_false, hd, if_true, hct, List.all_cons, hd,
            Bool.or_true, Bool.true_and]
          simpa using ih
        | ok pr =>
          rw [hct] at ih
          obtain ⟨cs, ds⟩ := pr
          simp only [classifyChars, ha, if_false, hd, if_true, hct, List.all_cons, hd,
            Bool.or_true, Bool.true_and]
          simpa using ih
      · simp [classifyChars, ha, hd, List.all_cons, Bool.or_eq_true, Except.toOption]

/-- On a string of letters and digits the classification loop returns the
letter subsequence as the column part and the digit subsequence as the
row part. -/
theorem classifyChars_all_alnum (r : Str)
    (h : ∀ c ∈ r, (isAlphaCh c || isDigitCh c) = true) :
    classifyChars r = Except.ok (r.filter isAlphaCh, r.filter isDigitCh) := by
  induction r with
  | nil => rfl
  | cons a t ih =>
    have hrest := ih (fun c hc => h c (List.mem_cons_of_mem a hc))
    by_cases hal : isAlphaCh a = true
    · have hdg : isDigitCh a = false := isDigitCh_of_alpha a hal
      simp [classifyChars, hal, hrest, List.filter_cons, hdg]
    · have hdg : isDigitCh a = true := by
        have := h a (List.mem_cons_self a t)
        simpa [hal] using this
      simp [classifyChars, hal, hdg, hrest, List.filter_cons]

/-- The letters-to-index fold keeps a positive accumulator positive. -/
theorem columnLettersToIndex_foldl_pos (ls : Str) :
    ∀ acc, 1 ≤ acc → 1 ≤ ls.foldl (fun result c => result * 26 + (c - 65 + 1)) acc := by
  induction ls with
  | nil => intro acc h; simpa using h
  | cons a t ih =>
    intro acc h
    simp only [List.foldl_cons]
    exact ih _ (by omega)

/-- A nonempty letter string decodes to a positive column index. -/
theorem columnLettersToIndex_pos (ls : Str) (hne : ls ≠ [])
    (h : ∀ c ∈ ls, isAlphaCh c = true) : 1 ≤ columnLettersToIndex ls := by
  match ls, hne with
  | a :: t, _ =>
    have ha : 65 ≤ a := by
      have := h a (List.mem_cons_self a t)
      simp only [isAlphaCh, Bool.or_eq_true, Bool.and_eq_true, decide_eq_true_eq] at this
      omega
    unfold columnLettersToIndex
    simp only [List.foldl_cons]
    exact columnLettersToIndex_foldl_pos t (0 * 26 + (a - 65 + 1)) (by omega)

/-- A valid row and column pair passes position validation. -/
theorem cellPosition_make_ok (r c : Nat) (hr : 1 ≤ r) (hc : 1 ≤ c) :
    CellPosition.make r c = Except.ok ⟨r, c⟩ := by
  unfold CellPosition.make
  rw [if_neg (by omega), if_neg (by omega)]

/-- A zero row fails position validation with the row error. -/
theorem cellPosition_make_row_err (r c : Nat) (hr : r < 1) :
    CellPosition.make r c = Except.error PositionError.invalidRow := by
  unfold CellPosition.make
  rw [if_pos hr]

/-- C7 (amended): after stripping whitespace and uppercasing, `from_a1`
accepts exactly the strings that are nonempty, consist solely of letters
and digits, contain at least one letter and at least one digit, and whose
digit subsequence decodes to a positive row — the letters need NOT precede
the digits. -/
theorem fromA1_ok_characterization (s : Str) :
    (fromA1 s).toOption.isSome =
      ((!((stripStr s).map toUpperCh).isEmpty) &&
       ((stripStr s).map toUpperCh).all (fun c => isAlphaCh c || isDigitCh c) &&
       ((stripStr s).map toUpperCh).any isAlphaCh &&
       ((stripStr s).map toUpperCh).any isDigitCh &&
       decide (1 ≤ digitsToNat (((stripStr s).map toUpperCh).filter isDigitCh))) := by
  set r : Str := (stripStr s).map toUpperCh with hrdef
  unfold fromA1
  rw [← hrdef]
  by_cases hemp : r.isEmpty = true
  · rw [if_pos hemp]
    simp [hemp, Except.toOption]
  · rw [if_neg hemp]
    replace hemp : r.isEmpty = false := Bool.not_eq_true _ |>.mp hemp
    by_cases hall : r.all (fun c => isAlphaCh c || isDigitCh c) = true
    · have hca := classifyChars_all_alnum r
        (fun c hc => by simpa using List.all_eq_true.mp hall c hc)
      simp only [hca]
      by_cases hA : r.any isAlphaCh = true
      · by_cases hD : r.any isDigitCh = true
        · have hAfil : r.filter isAlphaCh ≠ [] := by
            obtain ⟨c, hc, hcp⟩ := List.any_eq_true.mp hA
            exact List.ne_nil_of_mem (List.mem_filter.mpr ⟨hc, hcp⟩)
          have hDfil : r.filter isDigitCh ≠ [] := by
            obtain ⟨c, hc, hcp⟩ := List.any_eq_true.mp hD
            exact List.ne_nil_of_mem (List.mem_filter.mpr ⟨hc, hcp⟩)
          rw [if_neg (by
            simp only [Bool.or_eq_true, List.isEmpty_iff]
            rintro (h | h)
            · exact hAfil h
            · exact hDfil h)]
          have hcol : 1 ≤ columnLettersToIndex (r.filter isAlphaCh) :=
            columnLettersToIndex_pos _ hAfil (fun c hc => (List.mem_filter.mp hc).2)
          by_cases hrow : 1 ≤ digitsToNat (r.filter isDigitCh)
          · rw [cellPosition_make_ok _ _ hrow hcol]
            simp [Except.toOption, hemp, hall, hA, hD, hrow]
          · rw [cellPosition_make_row_err _ _ (by omega)]
            simp [Except.toOption, hrow]
        · replace hD : r.any isDigitCh = false := Bool.not_eq_true _ |>.mp hD
          have hDfil : r.filter isDigitCh = [] := by
            refine List.filter_eq_nil_iff.mpr (fun c hc => ?_)
            intro hcp
            exact absurd (List.any_eq_true.mpr ⟨c, hc, by simpa using hcp⟩)
              (by simp [hD])
          rw [if_pos (by simp [hDfil])]
          simp [Except.toOption, hD]
      · replace hA : r.any isAlphaCh = false := Bool.not_eq_true _ |>.mp hA
        have hAfil : r.filter isAlphaCh = [] := by
          refine List.filter_eq_nil_iff.mpr (fun c hc => ?_)
          intro hcp
          exact absurd (List.any_eq_true.mpr ⟨c, hc, by simpa using hcp⟩)
            (by simp [hA])
        rw [if_pos (by simp [hAfil])]
        simp [Except.toOption, hA]
    · have hclassify := classifyChars_isOk r
      replace hall : r.all (fun c => isAlphaCh c || isDigitCh c) = false :=
        Bool.not_eq_true _ |>.mp hall
      cases hcl : classifyChars r with
      | ok v =>
        rw [hcl] at hclassify
        simp only [Except.toOption, Option.isSome_some] at hclassify
        rw [hall] at hclassify
        cases hclassify
      | error e =>
        simp only [hcl]
        simp [Except.toOption, hall]

/-- C7 counterexample: the interleaved reference "A1B2" is accepted by
`from_a1` (letters "AB" give column 28, digits "12" give row 12) even
though it is not of the letters-then-digits form the claim requires of
every accepted reference. -/
theorem fromA1_interleaved_counterexample :
    fromA1 [65, 49, 66, 50] = Except.ok ⟨12, 28⟩ ∧
    specLettersThenDigits [65, 49, 66, 50] = false := by
  constructor
  · decide
  · decide

/-- Empty table data has no rows for any section. -/
theorem getSectionData_of_empty (d : TableData) (h : d.isEmptyData = true)
    (key : Str) : d.getSectionData key = [] := by
  unfold TableData.isEmptyData at h
  unfold TableData.getSectionData
  have : d.section_data = [] := by
    rcases Bool.and_eq_true .. |>.mp h with ⟨_, h2⟩
    simpa [List.isEmpty_iff] using h2
  simp [this]

/-- The sectioned loop is the concatenation of the per-section
contributions, in declared section order. -/
theorem sectionedDataCells_eq_flatMap (t : TableTemplate) (d : TableData)
    (secs : List SectionDefinition) :
    sectionedDataCells t d secs = secs.flatMap (sectionContribution t d) := by
  induction secs with
  | nil => rfl
  | cons sec rest ih =>
    by_cases h : (d.getSectionData sec.key).isEmpty = true
    · simp [sectionedDataCells, sectionContribution, h, ih]
    · simp only [sectionedDataCells, sectionContribution, h, if_false,
        List.flatMap_cons, ih, Bool.false_eq_true, List.append_assoc]

/-- Element-wise description of the total-row loop from any starting
enumeration index. -/
theorem createTotalRowAux_get (sec : SectionDefinition) (cols : List ColumnDefinition) :
    ∀ start i, (createTotalRowAux sec start cols).get? i = (cols.get? i).map (fun col =>
      if start + i = 0 then
        Cell.text sec.label (some ((sec.style).getD CellStyle.header))
      else if truthyStr sec.formula_template then
        Cell.formulaCell (sec.formula_template.getD []) Value.vNone col.number_format
          (some ((sec.style).getD CellStyle.header))
      else Cell.blank) := by
  induction cols with
  | nil => intro start i; simp [createTotalRowAux]
  | cons col rest ih =>
    intro start i
    cases i with
    | zero => simp [createTotalRowAux]
    | succ j =>
      simp only [createTotalRowAux, List.get?_cons_succ]
      rw [ih (start + 1) j]
      congr 1
      funext c
      congr 2
      omega

/-- Each cell count of the total-row loop matches its column count. -/
theorem createTotalRowAux_length (sec : SectionDefinition) :
    ∀ (cols : List ColumnDefinition) start,
      (createTotalRowAux sec start cols).length = cols.length := by
  intro cols
  induction cols with
  | nil => intro start; rfl
  | cons col rest ih => intro start; simp [createTotalRowAux, ih]

/-- The total row has one cell per visible column. -/
theorem createTotalRow_length (t : TableTemplate) (sec : SectionDefinition) :
    (createTotalRow t sec).length = t.visibleColumns.length :=
  createTotalRowAux_length sec t.visibleColumns 0

/-- Each data row of the body has one cell per visible column. -/
theorem createRowCells_length (t : TableTemplate) (row : RowData) :
    (createRowCells t row).length = t.visibleColumns.length := by
  simp [createRowCells]

/-- C1: for a sectioned template the body is the concatenation, in
declared section order, of each section's contribution — nothing for a
section without data rows, otherwise its data rows in input order
followed by exactly one total row iff the section has `is_total` or a
(truthy) `formula_template`; the total row's first visible column is a
text cell with the section label, and every later visible column is a
formula cell with the section's `formula_template` and that column's
number format when one is declared, else a blank cell. -/
theorem mergeTable_sectioned_body (t : TableTemplate) (d : TableData)
    (secs : List SectionDefinition) (hsec : t.sections = some secs)
    (hne : secs ≠ []) :
    createDataCells t d = secs.flatMap (sectionContribution t d) ∧
    (∀ sec, (d.getSectionData sec.key).isEmpty = true →
      sectionContribution t d sec = []) ∧
    (∀ sec, (d.getSectionData sec.key).isEmpty = false →
      sectionContribution t d sec =
        (d.getSectionData sec.key).map (createRowCells t) ++
          (if truthyStr sec.formula_template || sec.is_total then
            [createTotalRow t sec] else [])) ∧
    (∀ sec, 0 < t.visibleColumns.length →
      (createTotalRow t sec).get? 0 =
        some (Cell.text sec.label (some ((sec.style).getD CellStyle.header)))) ∧
    (∀ sec i, 0 < i →
      (createTotalRow t sec).get? i = (t.visibleColumns.get? i).map (fun col =>
        if truthyStr sec.formula_template then
          Cell.formulaCell (sec.formula_template.getD []) Value.vNone col.number_format
            (some ((sec.style).getD CellStyle.header))
        else Cell.blank)) := by
  refine ⟨?_, ?_, ?_, ?_, ?_⟩
  · unfold createDataCells
    rw [hsec]
    by_cases hd : d.isEmptyData = true
    · rw [if_pos hd]
      have : ∀ sec, sectionContribution t d sec = [] := by
        intro sec
        unfold sectionContribution
        rw [getSectionData_of_empty d hd sec.key]
        simp
      symm
      simp [List.flatMap_eq_nil_iff]
      intro sec _
      exact this sec
    · rw [if_neg hd]
      show (if secs.isEmpty = true then d.rows.map (fun row => createRowCells t row)
        else sectionedDataCells t d secs) = _
      rw [if_neg (by simpa [List.isEmpty_iff] using hne)]
      exact sectionedDataCells_eq_flatMap t d secs
  · intro sec h
    unfold sectionContribution
    rw [if_pos h]
  · intro sec h
    unfold sectionContribution
    rw [if_neg (by simp [h])]
    simp [createSectionCells]
  · intro sec hcols
    unfold createTotalRow
    rw [createTotalRowAux_get sec t.visibleColumns 0 0]
    cases hv : t.visibleColumns with
    | nil => rw [hv] at hcols; simp at hcols
    | cons col rest => simp [hv]
  · intro sec i hi
    unfold createTotalRow
    rw [createTotalRowAux_get sec t.visibleColumns 0 i]
    congr 1
    funext col
    rw [if_neg (by omega)]

/-- Witness for C1 at the spec's concrete scenario: sections
[A(no total), B(is_total)] with 2 data rows for A and 1 for B produce a
4-row body in the order A-row, A-row, B-row, B-total-row, where the total
row starts with the section label and its remaining cell is blank. -/
theorem mergeTable_sectioned_body_witness :
    sampleTableT.sections = some [sampleSectionA, sampleSectionB] ∧
    createDataCells sampleTableT sampleTableData
      = [sampleSectionA, sampleSectionB].flatMap
          (sectionContribution sampleTableT sampleTableData) ∧
    (createDataCells sampleTableT sampleTableData).length = 4 ∧
    createDataCells sampleTableT sampleTableData
      = [createRowCells sampleTableT (sampleRow 1),
         createRowCells sampleTableT (sampleRow 2),
         createRowCells sampleTableT (sampleRow 3),
         createTotalRow sampleTableT sampleSectionB] ∧
    (createTotalRow sampleTableT sampleSectionB).get? 0
      = some (Cell.text [66] (some CellStyle.header)) ∧
    (createTotalRow sampleTableT sampleSectionB).get? 1 = some Cell.blank :=
  ⟨rfl,
   (mergeTable_sectioned_body sampleTableT sampleTableData
     [sampleSectionA, sampleSectionB] rfl (by simp)).1,
   by decide, by decide,
   (mergeTable_sectioned_body sampleTableT sampleTableData
     [sampleSectionA, sampleSectionB] rfl (by simp)).2.2.2.1 sampleSectionB (by decide),
   by decide⟩

/-- Every row the sectioned loop produces has one cell per visible
column. -/
theorem sectionedDataCells_row_lengths (t : TableTemplate) (d : TableData)
    (secs : List SectionDefinition) :
    ∀ row ∈ sectionedDataCells t d secs, row.length = t.visibleColumns.length := by
  induction secs with
  | nil => intro row hrow; cases hrow
  | cons sec rest ih =>
    intro row hrow
    unfold sectionedDataCells at hrow
    by_cases h : (d.getSectionData sec.key).isEmpty = true
    · rw [if_pos h] at hrow
      exact ih row hrow
    · rw [if_neg h] at hrow
      rcases List.mem_append.mp hrow with h1 | h1
      · rcases List.mem_append.mp h1 with h2 | h2
        · obtain ⟨rd, _, hrd⟩ := List.mem_map.mp h2
          rw [← hrd]
          exact createRowCells_length t rd
        · by_cases htot : (truthyStr sec.formula_template || sec.is_total) = true
          · rw [if_pos htot] at h2
            rw [List.mem_singleton.mp h2]
            exact createTotalRow_length t sec
          · rw [if_neg htot] at h2
            cases h2
      · exact ih row h1

/-- Every row the body builder produces, for any data, has one cell per
visible column. -/
theorem createDataCells_row_lengths (t : TableTemplate) (d : TableData) :
    ∀ row ∈ createDataCells t d, row.length = t.visibleColumns.length := by
  intro row hrow
  unfold createDataCells at hrow
  by_cases hd : d.isEmptyData = true
  · rw [if_pos hd] at hrow
    cases hrow
  · rw [if_neg hd] at hrow
    cases hsec : t.sections with
    | none =>
      rw [hsec] at hrow
      obtain ⟨rd, _, hrd⟩ := List.mem_map.mp hrow
      rw [← hrd]
      exact createRowCells_length t rd
    | some secs =>
      rw [hsec] at hrow
      have hrow2 : row ∈ (if secs.isEmpty = true then
          d.rows.map (fun row => createRowCells t row)
        else sectionedDataCells t d secs) := hrow
      by_cases hse : secs.isEmpty = true
      · rw [if_pos hse] at hrow2
        obtain ⟨rd, _, hrd⟩ := List.mem_map.mp hrow2
        rw [← hrd]
        exact createRowCells_length t rd
      · rw [if_neg hse] at hrow2
        exact sectionedDataCells_row_lengths t d secs row hrow2

/-- A grid whose rows all share one length passes the rectangularity
check of `Table.__post_init__`. -/
theorem tableRowsRectangular_of_uniform (cells : List (List Cell)) (n : Nat)
    (h : ∀ row ∈ cells, row.length = n) : tableRowsRectangular cells = true := by
  cases cells with
  | nil => rfl
  | cons r rest =>
    unfold tableRowsRectangular
    rw [List.all_eq_true]
    intro r2 hr2
    have h1 : r.length = n := h r (List.mem_cons_self r rest)
    have h2 : r2.length = n := h r2 (List.mem_cons_of_mem r hr2)
    simp [h1, h2]

/-- C3: merging a template against the empty data substituted for a
missing table yields zero body rows while keeping the header cells (one
per visible column) and the title cell exactly when the template declares
a (truthy) title; and for every data collection the body the merge
builds is rectangular, so the `Table` construction inside `merge_table`
never raises. -/
theorem mergeTable_missing_data (t : TableTemplate) :
    (mergeTable t emptyTableData).cells = [] ∧
    (mergeTable t emptyTableData).headers = some (createHeaderCells t) ∧
    (createHeaderCells t).length = t.visibleColumns.length ∧
    (∀ s, t.title = some s → s ≠ [] →
      (mergeTable t emptyTableData).title = some (Cell.text s t.title_style)) ∧
    (t.title = Option.none → (mergeTable t emptyTableData).title = Option.none) ∧
    (∀ d : TableData, tableRowsRectangular (createDataCells t d) = true) := by
  have hbody : createDataCells t emptyTableData = [] := rfl
  have hmt : mergeTable t emptyTableData =
      { cells := [], headers := some (createHeaderCells t),
        title := (match t.title with
          | some s => if s.isEmpty then Option.none else some (Cell.text s t.title_style)
          | Option.none => Option.none),
        start_position := t.start_position } := by
    unfold mergeTable
    simp only [hbody]
    by_cases halt : (t.alternate_row_colors && t.alternate_row_style.isSome) = true
    · simp [halt, Table.rowCount, evenIndices]
    · simp [halt]
  refine ⟨?_, ?_, ?_, ?_, ?_, ?_⟩
  · rw [hmt]
  · rw [hmt]
  · simp [createHeaderCells]
  · intro s hs hne
    rw [hmt, hs]
    simp [List.isEmpty_iff, hne]
  · intro hnone
    rw [hmt, hnone]
  · intro d
    exact tableRowsRectangular_of_uniform (createDataCells t d) t.visibleColumns.length
      (createDataCells_row_lengths t d)

/-- Witness for C3 at the sample templates: the titled table keeps its
title cell and headers over empty data, the untitled table has no title
cell, and the sample data's body is rectangular. -/
theorem mergeTable_missing_data_witness :
    (mergeTable sampleTitledTable emptyTableData).cells = [] ∧
    (mergeTable sampleTitledTable emptyTableData).title
      = some (Cell.text [84] Option.none) ∧
    (mergeTable sampleTableT emptyTableData).title = Option.none ∧
    tableRowsRectangular (createDataCells sampleTableT sampleTableData) = true :=
  ⟨(mergeTable_missing_data sampleTitledTable).1,
   (mergeTable_missing_data sampleTitledTable).2.2.2.1 [84] rfl (by simp),
   (mergeTable_missing_data sampleTableT).2.2.2.2.1 rfl,
   (mergeTable_missing_data sampleTableT).2.2.2.2.2 sampleTableData⟩

/-- Element-wise description of the row-replacement operation: only the
addressed row is style-merged, rows at other indices (and out-of-bounds
addresses) are untouched. -/
theorem applyStyleToRowCells_get (style : Option CellStyle) :
    ∀ (cells : List (List Cell)) (row i : Nat),
      (applyStyleToRowCells cells row style).get? i =
        if i = row then
          (cells.get? i).map (List.map (fun c => c.mergeStyle style))
        else cells.get? i := by
  intro cells
  induction cells with
  | nil => intro row i; simp [applyStyleToRowCells]
  | cons r rest ih =>
    intro row i
    cases row with
    | zero =>
      cases i with
      | zero => simp [applyStyleToRowCells]
      | succ j => simp [applyStyleToRowCells]
    | succ m =>
      cases i with
      | zero => simp [applyStyleToRowCells]
      | succ j =>
        simp only [applyStyleToRowCells, List.get?_cons_succ]
        rw [ih m j]
        by_cases hj : j = m
        · simp [hj]
        · simp [hj, Nat.succ_ne_succ.mpr hj]

/-- Folding the row-styling operation over a duplicate-free index list
style-merges exactly the rows at those indices. -/
theorem foldl_applyStyleToRow_get (style : Option CellStyle) :
    ∀ (idxs : List Nat) (tb : Table), idxs.Nodup →
      ∀ i, ((idxs.foldl (fun acc j => acc.applyStyleToRow j style) tb).cells.get? i) =
        if i ∈ idxs then
          (tb.cells.get? i).map (List.map (fun c => c.mergeStyle style))
        else tb.cells.get? i := by
  intro idxs
  induction idxs with
  | nil => intro tb _ i; simp
  | cons j rest ih =>
    intro tb hnd i
    obtain ⟨hj, hrest⟩ := List.nodup_cons.mp hnd
    rw [List.foldl_cons, ih (tb.applyStyleToRow j style) hrest i]
    have happ : (tb.applyStyleToRow j style).cells.get? i =
        if i = j then (tb.cells.get? i).map (List.map (fun c => c.mergeStyle style))
        else tb.cells.get? i := applyStyleToRowCells_get style tb.cells j i
    by_cases hin : i ∈ rest
    · have hij : i ≠ j := fun h => hj (h ▸ hin)
      rw [if_pos hin, happ, if_neg hij, if_pos (List.mem_cons_of_mem j hin)]
    · by_cases hij : i = j
      · rw [if_neg hin, happ, if_pos hij, if_pos (hij ▸ List.mem_cons_self j rest)]
      · rw [if_neg hin, happ, if_neg hij,
          if_neg (by simp [List.mem_cons, hij, hin])]

/-- Membership in the alternate-row index list. -/
theorem mem_evenIndices (n i : Nat) : i ∈ evenIndices n ↔ i < n ∧ i % 2 = 0 := by
  simp [evenIndices, List.mem_filter, List.mem_range, Nat.beq_eq_true_eq]

/-- The alternate-row index list has no duplicates. -/
theorem evenIndices_nodup (n : Nat) : (evenIndices n).Nodup :=
  (List.nodup_range n).filter _

/-- C4: with `alternate_row_colors` set and an `alternate_row_style`
present, `merge_table` style-merges the alternate style into every
even-indexed body row — data row or total row alike — and leaves
odd-indexed rows unchanged. -/
theorem mergeTable_alternate_rows (t : TableTemplate) (d : TableData)
    (st : CellStyle) (hcolors : t.alternate_row_colors = true)
    (hstyle : t.alternate_row_style = some st) :
    ∀ i, (mergeTable t d).cells.get? i =
      ((createDataCells t d).get? i).map (fun row =>
        if i % 2 = 0 then row.map (fun c => c.mergeStyle (some st)) else row) := by
  intro i
  unfold mergeTable
  rw [hstyle]
  simp only [hcolors, Option.isSome_some, Bool.and_self, if_true]
  rw [foldl_applyStyleToRow_get (some st) _ _ (evenIndices_nodup _) i]
  simp only [Table.rowCount]
  by_cases hlt : i < (createDataCells t d).length
  · have hget : ∃ row, (createDataCells t d).get? i = some row := by
      rw [List.get?_eq_get hlt]
      exact ⟨_, rfl⟩
    obtain ⟨row, hrow⟩ := hget
    by_cases hev : i % 2 = 0
    · rw [if_pos ((mem_evenIndices _ i).mpr ⟨hlt, hev⟩), hrow]
      simp [hev]
    · rw [if_neg (by rw [mem_evenIndices]; exact fun h => hev h.2), hrow]
      simp [hev]
  · have hnone : (createDataCells t d).get? i = Option.none :=
      List.get?_eq_none.mpr (Nat.le_of_not_lt hlt)
    rw [if_neg (by rw [mem_evenIndices]; exact fun h => hlt h.1), hnone]
    simp

/-- Witness for C4 at the sample alternate-colored table: body row 0 (a
data row) is restyled, body row 1 is untouched. -/
theorem mergeTable_alternate_rows_witness :
    sampleAltTable.alternate_row_colors = true ∧
    (mergeTable sampleAltTable sampleTableData).cells.get? 0 =
      ((createDataCells sampleAltTable sampleTableData).get? 0).map
        (fun row => row.map (fun c => c.mergeStyle (some sampleAltStyle))) ∧
    (mergeTable sampleAltTable sampleTableData).cells.get? 1 =
      (createDataCells sampleAltTable sampleTableData).get? 1 :=
  ⟨rfl,
   by simpa using
     mergeTable_alternate_rows sampleAltTable sampleTableData sampleAltStyle rfl rfl 0,
   by simpa using
     mergeTable_alternate_rows sampleAltTable sampleTableData sampleAltStyle rfl rfl 1⟩

/-- The alternate-row restyling fold does not move the table. -/
theorem foldl_applyStyleToRow_start (style : Option CellStyle) :
    ∀ (idxs : List Nat) (tb : Table),
      ((idxs.foldl (fun acc j => acc.applyStyleToRow j style) tb)).start_position =
        tb.start_position := by
  intro idxs
  induction idxs with
  | nil => intro tb; rfl
  | cons j rest ih => intro tb; rw [List.foldl_cons, ih]; rfl

/-- The function `merge_table` anchors the produced table at the template's start
position. -/
theorem mergeTable_start (t : TableTemplate) (d : TableData) :
    (mergeTable t d).start_position = t.start_position := by
  unfold mergeTable
  by_cases halt : (t.alternate_row_colors && t.alternate_row_style.isSome) = true
  · simp only [halt, if_true]
    rw [foldl_applyStyleToRow_start]
  · simp [halt]

/-- The method `set_column_width` changes only the width map. -/
theorem setColumnWidth_tables (s : Sheet) (column : Nat) (width : Rat) (s2 : Sheet)
    (h : s.setColumnWidth column width = Except.ok s2) : s2.tables = s.tables := by
  unfold Sheet.setColumnWidth at h
  split at h
  · cases h
  · cases h
    rfl

/-- The width-propagation loop changes only the width map. -/
theorem setVisibleWidths_tables :
    ∀ (cols : List ColumnDefinition) (s : Sheet) (idx : Nat) (s2 : Sheet),
      setVisibleWidths s idx cols = Except.ok s2 → s2.tables = s.tables := by
  intro cols
  induction cols with
  | nil =>
    intro s idx s2 h
    cases h
    rfl
  | cons col rest ih =>
    intro s idx s2 h
    unfold setVisibleWidths at h
    cases hw : col.width with
    | none =>
      rw [hw] at h
      exact ih s (idx + 1) s2 h
    | some w =>
      rw [hw] at h
      have h2 : (if w ≠ 0 then
          (match s.setColumnWidth idx w with
            | Except.error e => Except.error e
            | Except.ok sW => setVisibleWidths sW (idx + 1) rest)
        else setVisibleWidths s (idx + 1) rest) = Except.ok s2 := h
      by_cases hz : w ≠ 0
      · rw [if_pos hz] at h2
        cases hsc : s.setColumnWidth idx w with
        | error e => rw [hsc] at h2; cases h2
        | ok sW =>
          rw [hsc] at h2
          rw [ih sW (idx + 1) s2 h2]
          exact setColumnWidth_tables s idx w sW hsc
      · rw [if_neg hz] at h2
        exact ih s (idx + 1) s2 h2

/-- The per-table loop of `merge_sheet` appends tables whose start
positions follow the cursor from its starting row. -/
theorem mergeSheetLoop_tables (d : SheetData) :
    ∀ (ts : List TableTemplate) (sh : Sheet) (cur : Nat) (sh2 : Sheet),
      mergeSheetLoop d ts sh cur = Except.ok sh2 →
      ∃ newT : List Table, sh2.tables = sh.tables ++ newT ∧
        newT.map Table.start_position = startPositions newT cur ∧
        newT.length = ts.length := by
  intro ts
  induction ts with
  | nil =>
    intro sh cur sh2 h
    cases h
    exact ⟨[], by simp, rfl, rfl⟩
  | cons tt rest ih =>
    intro sh cur sh2 h
    unfold mergeSheetLoop at h
    have hm : (match setVisibleWidths
        (sh.addTable (mergeTable (rebindStart tt cur)
          ((d.getTableData tt.name).getD emptyTableData))) 1 tt.visibleColumns with
      | Except.error e => Except.error e
      | Except.ok sheet2 => mergeSheetLoop d rest sheet2
          (cur + tableRowsUsed (mergeTable (rebindStart tt cur)
            ((d.getTableData tt.name).getD emptyTableData)) + 2)) = Except.ok sh2 := h
    cases hsw : setVisibleWidths
        (sh.addTable (mergeTable (rebindStart tt cur)
          ((d.getTableData tt.name).getD emptyTableData))) 1 tt.visibleColumns with
    | error e => rw [hsw] at hm; cases hm
    | ok sheet2 =>
      rw [hsw] at hm
      obtain ⟨newT', h1, h2, h3⟩ := ih sheet2 _ sh2 hm
      refine ⟨mergeTable (rebindStart tt cur)
        ((d.getTableData tt.name).getD emptyTableData) :: newT', ?_, ?_, ?_⟩
      · rw [h1, setVisibleWidths_tables _ _ _ _ hsw]
        simp [Sheet.addTable]
      · show _ :: _ = _ :: _
        rw [mergeTable_start]
        exact congrArg _ h2
      · simpa using h3

/-- A successfully validated fresh sheet has no tables yet. -/
theorem sheet_make_tables (name : Str) (fp : Option CellPosition)
    (dcw drh : Option Rat) (sh : Sheet)
    (h : Sheet.make name fp dcw drh = Except.ok sh) : sh.tables = [] := by
  unfold Sheet.make at h
  split at h
  · cases h
  · split at h
    · cases h
    · cases h
      rfl

/-- C2: a successful `merge_sheet` walks the table templates with a cursor
starting at row 1: every produced table starts at `(cursor, 1)` (always
column 1), and the cursor advances past each table by its
title-plus-headers-plus-body row count plus the fixed 2-row gap; one
table is produced per template. -/
theorem mergeSheet_cursor (t : SheetTemplate) (d : SheetData) (sh : Sheet)
    (h : mergeSheet t d = Except.ok sh) :
    sh.tables.map Table.start_position = startPositions sh.tables 1 ∧
    sh.tables.length = t.tables.length := by
  unfold mergeSheet at h
  cases hmk : Sheet.make t.name t.freeze_panes t.default_column_width
      t.default_row_height with
  | error e => rw [hmk] at h; cases h
  | ok sh0 =>
    rw [hmk] at h
    obtain ⟨newT, h1, h2, h3⟩ := mergeSheetLoop_tables d t.tables sh0 1 sh h
    rw [sheet_make_tables _ _ _ _ _ hmk] at h1
    simp only [List.nil_append] at h1
    rw [h1]
    exact ⟨h2, h3⟩

/-- Witness for C2 at the sample sheet: the first table (title + headers +
4 body rows = 6 rows used) starts at row 1, so the second starts at
1 + 6 + 2 = 9, both at column 1. -/
theorem mergeSheet_cursor_witness :
    mergeSheet sampleSheetTemplate sampleSheetData = Except.ok sampleMergedSheet ∧
    sampleMergedSheet.tables.map Table.start_position = [⟨1, 1⟩, ⟨9, 1⟩] ∧
    sampleMergedSheet.tables.map Table.start_position
      = startPositions sampleMergedSheet.tables 1 :=
  ⟨by decide, by decide,
   (mergeSheet_cursor sampleSheetTemplate sampleSheetData sampleMergedSheet
     (by decide)).1⟩

/-- The method `set_column_width` fails only with the non-positive-width error. -/
theorem setColumnWidth_error (s : Sheet) (column : Nat) (width : Rat)
    (e : MergeError) (h : s.setColumnWidth column width = Except.error e) :
    e = MergeError.nonPositiveColumnWidth := by
  unfold Sheet.setColumnWidth at h
  split at h
  · cases h
    rfl
  · cases h

/-- The width-propagation loop fails only with the non-positive-width
error. -/
theorem setVisibleWidths_error :
    ∀ (cols : List ColumnDefinition) (s : Sheet) (idx : Nat) (e : MergeError),
      setVisibleWidths s idx cols = Except.error e →
      e = MergeError.nonPositiveColumnWidth := by
  intro cols
  induction cols with
  | nil => intro s idx e h; cases h
  | cons col rest ih =>
    intro s idx e h
    unfold setVisibleWidths at h
    cases hw : col.width with
    | none =>
      rw [hw] at h
      exact ih s (idx + 1) e h
    | some w =>
      rw [hw] at h
      have h2 : (if w ≠ 0 then
          (match s.setColumnWidth idx w with
            | Except.error e => Except.error e
            | Except.ok sW => setVisibleWidths sW (idx + 1) rest)
        else setVisibleWidths s (idx + 1) rest) = Except.error e := h
      by_cases hz : w ≠ 0
      · rw [if_pos hz] at h2
        cases hsc : s.setColumnWidth idx w with
        | error e0 =>
          rw [hsc] at h2
          cases h2
          exact setColumnWidth_error s idx w _ hsc
        | ok sW =>
          rw [hsc] at h2
          exact ih sW (idx + 1) e h2
      · rw [if_neg hz] at h2
        exact ih s (idx + 1) e h2

/-- The per-table loop of `merge_sheet` fails only with the
non-positive-width error. -/
theorem mergeSheetLoop_error (d : SheetData) :
    ∀ (ts : List TableTemplate) (sh : Sheet) (cur : Nat) (e : MergeError),
      mergeSheetLoop d ts sh cur = Except.error e →
      e = MergeError.nonPositiveColumnWidth := by
  intro ts
  induction ts with
  | nil => intro sh cur e h; cases h
  | cons tt rest ih =>
    intro sh cur e h
    unfold mergeSheetLoop at h
    have hm : (match setVisibleWidths
        (sh.addTable (mergeTable (rebindStart tt cur)
          ((d.getTableData tt.name).getD emptyTableData))) 1 tt.visibleColumns with
      | Except.error e => Except.error e
      | Except.ok sheet2 => mergeSheetLoop d rest sheet2
          (cur + tableRowsUsed (mergeTable (rebindStart tt cur)
            ((d.getTableData tt.name).getD emptyTableData)) + 2)) = Except.error e := h
    cases hsw : setVisibleWidths
        (sh.addTable (mergeTable (rebindStart tt cur)
          ((d.getTableData tt.name).getD emptyTableData))) 1 tt.visibleColumns with
    | error e0 =>
      rw [hsw] at hm
      cases hm
      exact setVisibleWidths_error _ _ _ _ hsw
    | ok sheet2 =>
      rw [hsw] at hm
      exact ih sheet2 _ e hm

/-- A name within the length limit and free of invalid characters passes
sheet validation. -/
theorem sheet_make_ok (name : Str) (fp : Option CellPosition) (dcw drh : Option Rat)
    (hlen : name.length ≤ 31)
    (hchars : name.any (fun c => invalidSheetChars.contains c) = false) :
    Sheet.make name fp dcw drh = Except.ok
      { name := name, freeze_panes := fp, default_column_width := dcw,
        default_row_height := drh } := by
  unfold Sheet.make
  rw [if_neg (by omega), if_neg (by rw [hchars]; simp)]

/-- A successfully constructed sheet template carries the given name,
which passed the length check. -/
theorem sheetTemplate_make_name (name : Str) (tables : List TableTemplate)
    (fp : Option CellPosition) (dcw drh : Option Rat) (sg shh : Bool) (zoom : Nat)
    (st : SheetTemplate)
    (h : SheetTemplate.make name tables fp dcw drh sg shh zoom = Except.ok st) :
    st.name = name ∧ st.freeze_panes = fp ∧ st.default_column_width = dcw ∧
      st.default_row_height = drh ∧ name.length ≤ 31 := by
  unfold SheetTemplate.make at h
  split at h
  · cases h
  · split at h
    · cases h
    · split at h
      · cases h
      · split at h
        · cases h
        · cases h
          refine ⟨rfl, rfl, rfl, rfl, by omega⟩

/-- C8 (amended): a sheet name longer than 31 characters is rejected when
the `SheetTemplate` is constructed, but the invalid-character rule is NOT
checked there: for a successfully constructed template whose name is free
of invalid characters, merging can only fail with the non-positive-width
error (never a name-validation error) — while a template whose name
contains an invalid character constructs fine and the violation surfaces
only at merge time (see the counterexample). -/
theorem sheetTemplate_name_validation (name : Str) (tables : List TableTemplate)
    (fp : Option CellPosition) (dcw drh : Option Rat) (sg shh : Bool) (zoom : Nat) :
    (31 < name.length →
      SheetTemplate.make name tables fp dcw drh sg shh zoom
        = Except.error TemplateError.sheetTemplateNameTooLong) ∧
    (∀ (st : SheetTemplate) (d : SheetData) (e : MergeError),
      SheetTemplate.make name tables fp dcw drh sg shh zoom = Except.ok st →
      name.any (fun c => invalidSheetChars.contains c) = false →
      mergeSheet st d = Except.error e →
      e = MergeError.nonPositiveColumnWidth) := by
  constructor
  · intro hlong
    unfold SheetTemplate.make
    rw [if_neg (by
      intro hε
      rw [List.isEmpty_iff.mp hε] at hlong
      simp at hlong)]
    rw [if_pos hlong]
  · intro st d e hmake hchars hmerge
    obtain ⟨hname, hfp, hdcw, hdrh, hlen⟩ :=
      sheetTemplate_make_name name tables fp dcw drh sg shh zoom st hmake
    unfold mergeSheet at hmerge
    rw [hname, hfp, hdcw, hdrh] at hmerge
    rw [sheet_make_ok name fp dcw drh hlen hchars] at hmerge
    exact mergeSheetLoop_error d st.tables _ 1 e hmerge

/-- Witness for C8 (amended): the 32-character name is rejected at
template construction, and the valid-named sample template whose column
declares a negative width makes the merge fail with exactly the
non-positive-width error. -/
theorem sheetTemplate_name_validation_witness :
    SheetTemplate.make longName32 [sampleTableT] Option.none Option.none Option.none
        true true 100 = Except.error TemplateError.sheetTemplateNameTooLong ∧
    mergeSheet sampleNegWidthSheet emptySheetData
      = Except.error MergeError.nonPositiveColumnWidth ∧
    MergeError.nonPositiveColumnWidth = MergeError.nonPositiveColumnWidth :=
  ⟨(sheetTemplate_name_validation longName32 [sampleTableT] Option.none Option.none
      Option.none true true 100).1 (by decide),
   by decide,
   (sheetTemplate_name_validation [83] [sampleNegWidthTable] Option.none Option.none
      Option.none true true 100).2 sampleNegWidthSheet emptySheetData
      MergeError.nonPositiveColumnWidth rfl (by decide) (by decide)⟩

/-- C8 counterexample: the name "a/b" (3 characters, containing the
forbidden "/") is ACCEPTED by `SheetTemplate` construction, and merging
that template then raises the invalid-character name error — refuting the
claim that name-rule violations raise at construction and are never
deferred to merge time. -/
theorem sheetTemplate_name_validation_counterexample :
    (SheetTemplate.make slashName [sampleTableT] Option.none Option.none Option.none
        true true 100).map (fun st => mergeSheet st emptySheetData)
      = Except.ok (Except.error MergeError.sheetNameInvalidChar) := by
  decide

/-- The per-sheet loop reads the data only through `get_sheet_data`:
observationally equal data produce identical loop results. -/
theorem mergeSpreadsheetLoop_congr (d1 d2 : SpreadsheetData)
    (h : ∀ n : Str, d1.getSheetData n = d2.getSheetData n) :
    ∀ (ts : List SheetTemplate) (sp : Spreadsheet),
      mergeSpreadsheetLoop d1 ts sp = mergeSpreadsheetLoop d2 ts sp := by
  intro ts
  induction ts with
  | nil => intro sp; rfl
  | cons st rest ih =>
    intro sp
    unfold mergeSpreadsheetLoop
    rw [h st.name]
    cases hms : mergeSheet st ((d2.getSheetData st.name).getD emptySheetData) with
    | error e => simp [hms]
    | ok sheet =>
      simp only [hms]
      cases hadd : sp.addSheet sheet with
      | error e => simp [hadd]
      | ok sp2 =>
        simp only [hadd]
        exact ih sp2

/-- C9: the merge is a pure function of its inputs' observable content —
two data collections that answer every `get_sheet_data` lookup alike
yield identical spreadsheets (inputs are immutable values in this
embedding, so the merge cannot mutate them, and equal inputs trivially
give equal outputs). -/
theorem mergeSpreadsheet_deterministic (t : SpreadsheetTemplate)
    (d1 d2 : SpreadsheetData)
    (h : ∀ n : Str, d1.getSheetData n = d2.getSheetData n) :
    mergeSpreadsheet t d1 = mergeSpreadsheet t d2 := by
  unfold mergeSpreadsheet
  exact mergeSpreadsheetLoop_congr d1 d2 h t.sheets _

/-- Witness for C9: the sample data and its variant with a shadowed
duplicate binding of sheet "S" answer all lookups alike, so the merges
coincide. -/
theorem mergeSpreadsheet_deterministic_witness :
    mergeSpreadsheet sampleSpreadTemplate sampleSpreadData1
      = mergeSpreadsheet sampleSpreadTemplate sampleSpreadData2 :=
  mergeSpreadsheet_deterministic sampleSpreadTemplate sampleSpreadData1 sampleSpreadData2
    (fun name => by
      show List.lookup name [(([83] : Str), sampleSheetData)]
          = List.lookup name [(([83] : Str), sampleSheetData), (([83] : Str), emptySheetData)]
      cases hname : name == ([83] : Str) with
      | true => simp [List.lookup, hname]
      | false => simp [List.lookup, hname])
